import Mathlib

/-!
Shallow embedding of the Scilla wallet CLI's operation orchestration layer,
covering src/main.rs, src/commands/mod.rs, src/commands/account.rs,
src/commands/stake.rs, src/commands/vote.rs and src/misc/helpers.rs.

Remote-ledger (RPC) responses and the external byte decoders are supplied
through a `GatewayEnv` record of oracles; every gateway call a routine makes,
every instruction list it builds and every transaction it submits is recorded
in an ordered `Effect` trace, so statements of the form "no lookup happens
before the rejection" or "no transaction is built" are provable.  Rust `f64`
amounts are modelled as exact rationals; `u64` quantities as naturals.  Error
messages produced with `bail!`/`anyhow!` are modelled structurally: each
`ScErr` constructor corresponds to one `format!` string in the source and its
fields are exactly the values interpolated into that string.
-/

namespace Scilla

/-- Public keys (32-byte addresses in the source) are modelled as naturals. -/
abbrev Pubkey := Nat

/-- Largest value of a Rust `u64`. -/
def U64_MAX : Nat := 18446744073709551615

/-- Constant `constants::LAMPORTS_PER_SOL` used by src/misc/helpers.rs and
src/commands/account.rs.  Modelled from the spec: constants.rs is not under
src/; the spec fixes the display-unit ratio by "1,000,000,000 base-units ⇄
1.0 display-unit". -/
def LAMPORTS_PER_SOL : Nat := 1000000000

/-- Constant `constants::ACTIVE_STAKE_EPOCH_BOUND` used by
src/commands/stake.rs.  Modelled from the spec: constants.rs is not under
src/; the spec describes it as the sentinel "active/never deactivated" value
of the deactivation-epoch field, which is `u64::MAX` in the ledger's
encoding. -/
def ACTIVE_STAKE_EPOCH_BOUND : Nat := U64_MAX

/-- Address of the stake program (`solana_stake_interface::program::id()`),
an external constant; only its distinctness from other owners matters. -/
def stake_program_id : Pubkey := 1

/-- Address of the vote program (`solana_vote_program::id()`), an external
constant; only its distinctness from other owners matters. -/
def vote_program_id : Pubkey := 2

/-- Size in bytes of the vote-state encoding, `VoteStateV4::size_of()`;
an external library constant whose exact value no claim depends on. -/
def vote_state_v4_size_of : Nat := 3762

/-- Rust `expr as u64` applied to an `f64` value: truncation toward zero,
saturating at the `u64` range (the amounts involved are nonnegative, so
truncation toward zero is the floor). -/
def f64_as_u64 (q : ℚ) : Nat := min (max (Rat.floor q) 0).toNat U64_MAX

/-- src/misc/helpers.rs `lamports_to_sol`: `lamports as f64 / LAMPORTS_PER_SOL as f64`. -/
def lamports_to_sol (lamports : Nat) : ℚ := (lamports : ℚ) / (LAMPORTS_PER_SOL : ℚ)

/-- src/misc/helpers.rs `sol_to_lamports`: `(sol * LAMPORTS_PER_SOL as f64) as u64`. -/
def sol_to_lamports (sol : ℚ) : Nat := f64_as_u64 (sol * (LAMPORTS_PER_SOL : ℚ))

/-- An account as returned by the gateway's `get_account`
(lamports, owner program, raw data, executable flag, rent epoch). -/
structure Account where
  lamports : Nat
  owner : Pubkey
  data : List Nat
  executable : Bool
  rent_epoch : Nat
  deriving DecidableEq, Repr

/-- `solana_stake_interface::state::Authorized`: staker and withdrawer keys. -/
structure Authorized where
  staker : Pubkey
  withdrawer : Pubkey
  deriving DecidableEq, Repr

/-- The part of `solana_stake_interface::state::Meta` the source reads. -/
structure Meta where
  authorized : Authorized
  deriving DecidableEq, Repr

/-- The part of `solana_stake_interface::state::Delegation` the source reads. -/
structure Delegation where
  deactivation_epoch : Nat
  deriving DecidableEq, Repr

/-- The part of `solana_stake_interface::state::Stake` the source reads. -/
structure StakeData where
  delegation : Delegation
  deriving DecidableEq, Repr

/-- `solana_stake_interface::state::StakeStateV2`.  The third field of the
`Stake` variant (stake flags) is carried opaquely as a natural. -/
inductive StakeStateV2 where
  | Uninitialized : StakeStateV2
  | Initialized : Meta → StakeStateV2
  | Stake : Meta → StakeData → Nat → StakeStateV2
  | RewardsPool : StakeStateV2
  deriving DecidableEq, Repr

/-- The part of `VoteStateV4` read by the vote-withdraw path. -/
structure VoteStateV4 where
  node_pubkey : Pubkey
  authorized_withdrawer : Pubkey
  deriving DecidableEq, Repr

/-- `solana_vote_program::vote_state::VoteInit`. -/
structure VoteInit where
  node_pubkey : Pubkey
  authorized_voter : Pubkey
  authorized_withdrawer : Pubkey
  commission : Nat
  deriving DecidableEq, Repr

/-- Ledger instructions built by the routines under verification; each
constructor records the arguments the source passes to the corresponding
instruction builder. -/
inductive Instruction where
  /-- `solana_system_interface::instruction::transfer(from, to, lamports)`. -/
  | transfer : Pubkey → Pubkey → Nat → Instruction
  /-- `deactivate_stake(stake_pubkey, authorized_pubkey)`. -/
  | deactivate_stake : Pubkey → Pubkey → Instruction
  /-- `withdraw(stake_pubkey, withdrawer, recipient, lamports, None)` from the stake interface. -/
  | stake_withdraw : Pubkey → Pubkey → Pubkey → Nat → Instruction
  /-- `vote_instruction::create_account_with_config(fee_payer, vote_account, vote_init, lamports, config)`;
  the instruction list it returns is carried as one constructor holding the attached lamports. -/
  | create_vote_account : Pubkey → Pubkey → VoteInit → Nat → Instruction
  /-- `vote_instruction::withdraw(vote_account, withdrawer, lamports, recipient)`. -/
  | vote_withdraw : Pubkey → Pubkey → Nat → Pubkey → Instruction
  deriving DecidableEq, Repr

/-- Gateway calls as enumerated by the spec's Ledger Gateway interface. -/
inductive GatewayCall where
  | get_account : Pubkey → GatewayCall
  | get_balance : Pubkey → GatewayCall
  | get_epoch_info : GatewayCall
  | get_latest_blockhash : GatewayCall
  | get_minimum_balance_for_rent_exemption : Nat → GatewayCall
  | request_airdrop : Pubkey → Nat → GatewayCall
  deriving DecidableEq, Repr

/-- Observable steps of a routine: a gateway call, the construction of a
list of instructions, or the submission (send_and_confirm) of a signed
transaction holding those instructions and a blockhash. -/
inductive Effect where
  | call : GatewayCall → Effect
  | built : List Instruction → Effect
  | submit : List Instruction → Nat → Effect
  deriving DecidableEq, Repr

/-- Structural rendering of the `bail!`/`anyhow!` error messages; each
constructor's fields are exactly the values interpolated into the
corresponding `format!` string in the source. -/
inductive ScErr where
  /-- An error string coming back from the gateway, propagated with `?`. -/
  | gateway : String → ScErr
  /-- "Account is not owned by the stake program". -/
  | notOwnedByStakeProgram : ScErr
  /-- "Failed to deserialize stake account: e". -/
  | stakeDeserializeFailed : String → ScErr
  /-- "Stake is already deactivating at epoch e". -/
  | alreadyDeactivating : Nat → ScErr
  /-- "You are not the authorized staker. Authorized staker: s". -/
  | notAuthorizedStaker : Pubkey → ScErr
  /-- "Stake account is initialized but not delegated". -/
  | initializedNotDelegated : ScErr
  /-- "Stake account is not in a valid state for deactivation". -/
  | invalidStateForDeactivation : ScErr
  /-- "Withdrawal amount must be greater than 0". -/
  | amountNotPositive : ScErr
  /-- "You are not the authorized withdrawer. Authorized withdrawer: w". -/
  | notAuthorizedWithdrawer : Pubkey → ScErr
  /-- "Stake is still active. You must deactivate it first ...". -/
  | stakeStillActive : ScErr
  /-- "Stake is still cooling down. Current epoch: c, deactivation epoch: d, epochs remaining: r". -/
  | stakeCoolingDown : Nat → Nat → Nat → ScErr
  /-- "Insufficient balance. Have h SOL, trying to withdraw r SOL". -/
  | insufficientBalance : ℚ → ℚ → ScErr
  /-- "Stake account is uninitialized". -/
  | stakeUninitialized : ScErr
  /-- "Cannot withdraw from rewards pool". -/
  | rewardsPoolWithdraw : ScErr
  /-- "Fee payer f cannot be the same as vote account v". -/
  | feePayerEqualsVoteAccount : Pubkey → Pubkey → ScErr
  /-- "Vote account v cannot be the same as identity i". -/
  | voteAccountEqualsIdentity : Pubkey → Pubkey → ScErr
  /-- "Vote account v already exists". -/
  | voteAccountAlreadyExists : Pubkey → ScErr
  /-- "Account v already exists and is not a vote account". -/
  | accountExistsNotVote : Pubkey → ScErr
  /-- "v account does not exist". -/
  | accountDoesNotExist : Pubkey → ScErr
  /-- "v is not a vote account". -/
  | notAVoteAccount : Pubkey → ScErr
  /-- "Account data could not be deserialized to vote state". -/
  | voteStateDeserializeFailed : ScErr
  /-- "Keypair k is not the authorized withdrawer (w)": names both the
  supplied key and the account's authorized withdrawer. -/
  | keypairNotAuthorizedWithdrawer : Pubkey → Pubkey → ScErr
  deriving DecidableEq, Repr

/-- User-visible lines printed by the routines under verification (via
`print_error`, `println!` or the spinner); each constructor's fields are the
values interpolated into the printed text. -/
inductive Printed where
  /-- `print_error("Amount exceeds maximum allowed limit of {MAX_TRANSFER_SOL} SOL")`. -/
  | maxTransferLimitExceeded : ℚ → Printed
  /-- "Airdrop requested successfully! Signature: s". -/
  | airdropRequested : Nat → Printed
  /-- `print_error("Airdrop failed: {err}")`. -/
  | airdropFailed : String → Printed
  /-- Spinner line "✅ Done" printed by `show_spinner` on `Ok`. -/
  | spinnerDone : Printed
  /-- Spinner line "Error : e" printed by `show_spinner` on `Err`. -/
  | spinnerError : ScErr → Printed
  deriving DecidableEq, Repr

/-- Oracle record for the Ledger Gateway and the external byte decoders: a
field per remote call the verified routines make, holding the response that
call would produce during the one invocation under consideration. -/
structure GatewayEnv where
  get_account : Pubkey → Except String Account
  get_epoch_info : Except String Nat
  get_latest_blockhash : Except String Nat
  get_minimum_balance_for_rent_exemption : Nat → Except String Nat
  request_airdrop : Except String Nat
  send_and_confirm : Except String Nat
  decode_stake_state : List Nat → Except String StakeStateV2
  decode_vote_state : List Nat → Except String VoteStateV4

/-- The part of `ScillaContext` (src/context.rs) the orchestrators read: the
wallet's public key (`ctx.pubkey()`).  The keypair itself only feeds the
external signing primitive and is not modelled. -/
structure ScillaContext where
  pubkey : Pubkey
  deriving DecidableEq, Repr

/-- `CommandFlow` / `CommandExec` (src/commands/mod.rs): the operation
outcome channel seen by the router. -/
inductive CommandFlow (T : Type) where
  | Process : T → CommandFlow T
  | GoBack : CommandFlow T
  | Exit : CommandFlow T
  deriving DecidableEq, Repr

/-- Process exit codes (`std::process::ExitCode`). -/
inductive ExitCode where
  | success : ExitCode
  | failure : ExitCode
  deriving DecidableEq, Repr

/-- The `Termination` impl for `CommandExec<T>` (src/commands/mod.rs lines
29-34): reporting any outcome prints a goodbye line and yields
`ExitCode::SUCCESS`. -/
def commandFlowReport {T : Type} (_ : CommandFlow T) : ExitCode := ExitCode.success

/-- The `Termination` behaviour of `main`'s return type
`ScillaResult<()> = Result<CommandFlow<()>, anyhow::Error>`: `Ok(flow)`
reports through `CommandFlow`'s impl, `Err(_)` reports
`ExitCode::FAILURE` (std's impl for `Result`). -/
def mainExitCode : Except String (CommandFlow Unit) → ExitCode
  | Except.ok flow => commandFlowReport flow
  | Except.error _ => ExitCode.failure

/-- src/misc/helpers.rs `build_and_send_tx`: fetch the latest blockhash,
build one message with `ctx.pubkey()` as fee payer, sign, submit and confirm;
returns the signature.  The submitted instruction list and blockhash are
recorded in the trace. -/
def build_and_send_tx (env : GatewayEnv) (_ctx : ScillaContext)
    (instructions : List Instruction) : Except ScErr Nat × List Effect :=
  match env.get_latest_blockhash with
  | Except.error e => (Except.error (ScErr.gateway e), [Effect.call GatewayCall.get_latest_blockhash])
  | Except.ok recent_blockhash =>
    match env.send_and_confirm with
    | Except.error e =>
        (Except.error (ScErr.gateway e),
         [Effect.call GatewayCall.get_latest_blockhash,
          Effect.submit instructions recent_blockhash])
    | Except.ok signature =>
        (Except.ok signature,
         [Effect.call GatewayCall.get_latest_blockhash,
          Effect.submit instructions recent_blockhash])

/-- src/commands/account.rs `transfer_sol` (lines 288-308): convert the SOL
amount to lamports, build a system transfer instruction, fetch the latest
blockhash, sign and submit.  Note: no balance is fetched and no
balance-sufficiency check is performed in this routine. -/
def transfer_sol (env : GatewayEnv) (ctx : ScillaContext) (to_pubkey : Pubkey)
    (amount_sol : ℚ) : Except ScErr Unit × List Effect :=
  let lamports := f64_as_u64 (amount_sol * (LAMPORTS_PER_SOL : ℚ))
  let from_pubkey := ctx.pubkey
  let instruction := Instruction.transfer from_pubkey to_pubkey lamports
  match build_and_send_tx env ctx [instruction] with
  | (Except.error e, t) => (Except.error e, Effect.built [instruction] :: t)
  | (Except.ok _, t) => (Except.ok (), Effect.built [instruction] :: t)

/-- The `AccountCommand::Transfer` arm of `AccountCommand::process_command`
(src/commands/account.rs lines 78-99): if the prompted amount exceeds
`MAX_TRANSFER_SOL` (a constant from the absent constants.rs, taken here as a
parameter) print an error naming the limit and do not invoke `transfer_sol`;
otherwise run `transfer_sol` under the spinner, which prints Done or the
error and swallows the result.  Either way the arm falls through to
`CommandFlow::Process(())`. -/
def account_transfer_arm (max_transfer_sol : ℚ) (env : GatewayEnv)
    (ctx : ScillaContext) (to_pubkey : Pubkey) (amount : ℚ) :
    CommandFlow Unit × List Printed × List Effect :=
  if amount > max_transfer_sol then
    (CommandFlow.Process (), [Printed.maxTransferLimitExceeded max_transfer_sol], [])
  else
    match transfer_sol env ctx to_pubkey amount with
    | (Except.ok _, t) => (CommandFlow.Process (), [Printed.spinnerDone], t)
    | (Except.error e, t) => (CommandFlow.Process (), [Printed.spinnerError e], t)

/-- src/commands/account.rs `request_sol_airdrop` (lines 119-139): request a
1-SOL airdrop for the wallet's own key; print the signature on success or an
error line on failure, and return `Ok(())` in both cases. -/
def request_sol_airdrop (env : GatewayEnv) (ctx : ScillaContext) :
    Except ScErr Unit × List Printed × List Effect :=
  let sig := env.request_airdrop
  let t := [Effect.call (GatewayCall.request_airdrop ctx.pubkey (sol_to_lamports 1))]
  match sig with
  | Except.ok signature => (Except.ok (), [Printed.airdropRequested signature], t)
  | Except.error err => (Except.ok (), [Printed.airdropFailed err], t)

/-- src/commands/stake.rs `process_deactivate_stake_account` (lines
106-157): fetch the account, require stake-program ownership, deserialize,
require the delegated `Stake` variant with the deactivation epoch still at
the sentinel and the caller equal to the authorized staker, then build the
deactivate instruction and submit it. -/
def process_deactivate_stake_account (env : GatewayEnv) (ctx : ScillaContext)
    (stake_pubkey : Pubkey) : Except ScErr Unit × List Effect :=
  let t0 := [Effect.call (GatewayCall.get_account stake_pubkey)]
  match env.get_account stake_pubkey with
  | Except.error e => (Except.error (ScErr.gateway e), t0)
  | Except.ok account =>
    if account.owner ≠ stake_program_id then
      (Except.error ScErr.notOwnedByStakeProgram, t0)
    else
      match env.decode_stake_state account.data with
      | Except.error e => (Except.error (ScErr.stakeDeserializeFailed e), t0)
      | Except.ok stake_state =>
        match stake_state with
        | StakeStateV2.Stake meta stake _ =>
          if stake.delegation.deactivation_epoch ≠ ACTIVE_STAKE_EPOCH_BOUND then
            (Except.error (ScErr.alreadyDeactivating stake.delegation.deactivation_epoch), t0)
          else if meta.authorized.staker ≠ ctx.pubkey then
            (Except.error (ScErr.notAuthorizedStaker meta.authorized.staker), t0)
          else
            let authorized_pubkey := ctx.pubkey
            let instruction := Instruction.deactivate_stake stake_pubkey authorized_pubkey
            match build_and_send_tx env ctx [instruction] with
            | (Except.error e, t1) => (Except.error e, t0 ++ Effect.built [instruction] :: t1)
            | (Except.ok _, t1) => (Except.ok (), t0 ++ Effect.built [instruction] :: t1)
        | StakeStateV2.Initialized _ =>
          (Except.error ScErr.initializedNotDelegated, t0)
        | _ =>
          (Except.error ScErr.invalidStateForDeactivation, t0)

/-- The `match stake_state` block of `process_withdraw_stake`
(src/commands/stake.rs lines 180-222): per-variant validation; the delegated
`Stake` variant also fetches the current epoch, which is recorded in the
returned trace. -/
def validate_withdraw_state (env : GatewayEnv) (ctx : ScillaContext)
    (stake_state : StakeStateV2) : Except ScErr Unit × List Effect :=
  match stake_state with
  | StakeStateV2.Stake meta stake _ =>
    if meta.authorized.withdrawer ≠ ctx.pubkey then
      (Except.error (ScErr.notAuthorizedWithdrawer meta.authorized.withdrawer), [])
    else if stake.delegation.deactivation_epoch = ACTIVE_STAKE_EPOCH_BOUND then
      (Except.error ScErr.stakeStillActive, [])
    else
      let t1 := [Effect.call GatewayCall.get_epoch_info]
      match env.get_epoch_info with
      | Except.error e => (Except.error (ScErr.gateway e), t1)
      | Except.ok epoch =>
        if epoch ≤ stake.delegation.deactivation_epoch then
          (Except.error
            (ScErr.stakeCoolingDown epoch stake.delegation.deactivation_epoch
              (stake.delegation.deactivation_epoch - epoch)), t1)
        else
          (Except.ok (), t1)
  | StakeStateV2.Initialized meta =>
    if meta.authorized.withdrawer ≠ ctx.pubkey then
      (Except.error (ScErr.notAuthorizedWithdrawer meta.authorized.withdrawer), [])
    else
      (Except.ok (), [])
  | StakeStateV2.Uninitialized =>
    (Except.error ScErr.stakeUninitialized, [])
  | StakeStateV2.RewardsPool =>
    (Except.error ScErr.rewardsPoolWithdraw, [])

/-- src/commands/stake.rs `process_withdraw_stake` (lines 159-254): require a
positive amount, fetch the account, require stake-program ownership,
deserialize, run the per-variant validation (`validate_withdraw_state`),
check the requested lamports against the account's balance, then build the
stake-withdraw instruction and submit it. -/
def process_withdraw_stake (env : GatewayEnv) (ctx : ScillaContext)
    (stake_pubkey recipient : Pubkey) (amount_sol : ℚ) :
    Except ScErr Unit × List Effect :=
  if amount_sol ≤ 0 then
    (Except.error ScErr.amountNotPositive, [])
  else
    let amount_lamports := sol_to_lamports amount_sol
    let t0 := [Effect.call (GatewayCall.get_account stake_pubkey)]
    match env.get_account stake_pubkey with
    | Except.error e => (Except.error (ScErr.gateway e), t0)
    | Except.ok account =>
      if account.owner ≠ stake_program_id then
        (Except.error ScErr.notOwnedByStakeProgram, t0)
      else
        match env.decode_stake_state account.data with
        | Except.error e => (Except.error (ScErr.stakeDeserializeFailed e), t0)
        | Except.ok stake_state =>
          match validate_withdraw_state env ctx stake_state with
          | (Except.error e, t1) => (Except.error e, t0 ++ t1)
          | (Except.ok _, t1) =>
            if amount_lamports > account.lamports then
              (Except.error
                (ScErr.insufficientBalance (lamports_to_sol account.lamports) amount_sol),
               t0 ++ t1)
            else
              let withdrawer_pubkey := ctx.pubkey
              let instruction :=
                Instruction.stake_withdraw stake_pubkey withdrawer_pubkey recipient
                  amount_lamports
              match build_and_send_tx env ctx [instruction] with
              | (Except.error e, t2) =>
                  (Except.error e, t0 ++ t1 ++ Effect.built [instruction] :: t2)
              | (Except.ok _, t2) =>
                  (Except.ok (), t0 ++ t1 ++ Effect.built [instruction] :: t2)

/-- src/commands/vote.rs `process_create_vote_account` (lines 144-224); the
keypairs prompted in the command arm enter here only through their public
keys.  Distinctness checks come first (before any gateway call), then the
already-exists probe, then the rent-exemption lookup whose result is floored
at 1 lamport, then instruction building and submission. -/
def process_create_vote_account (env : GatewayEnv) (ctx : ScillaContext)
    (vote_account_pubkey identity_pubkey withdrawer_pubkey : Pubkey)
    (commission : Nat) : Except ScErr Unit × List Effect :=
  let fee_payer_pubkey := ctx.pubkey
  if fee_payer_pubkey = vote_account_pubkey then
    (Except.error (ScErr.feePayerEqualsVoteAccount fee_payer_pubkey vote_account_pubkey), [])
  else if vote_account_pubkey = identity_pubkey then
    (Except.error (ScErr.voteAccountEqualsIdentity vote_account_pubkey identity_pubkey), [])
  else
    let t0 := [Effect.call (GatewayCall.get_account vote_account_pubkey)]
    match env.get_account vote_account_pubkey with
    | Except.ok response =>
      if response.owner = vote_program_id then
        (Except.error (ScErr.voteAccountAlreadyExists vote_account_pubkey), t0)
      else
        (Except.error (ScErr.accountExistsNotVote vote_account_pubkey), t0)
    | Except.error _ =>
      let t1 := t0 ++
        [Effect.call (GatewayCall.get_minimum_balance_for_rent_exemption vote_state_v4_size_of)]
      match env.get_minimum_balance_for_rent_exemption vote_state_v4_size_of with
      | Except.error e => (Except.error (ScErr.gateway e), t1)
      | Except.ok min_balance =>
        let required_balance := max min_balance 1
        let vote_init : VoteInit :=
          { node_pubkey := identity_pubkey
            authorized_voter := identity_pubkey
            authorized_withdrawer := withdrawer_pubkey
            commission := commission }
        let instructions :=
          [Instruction.create_vote_account fee_payer_pubkey vote_account_pubkey vote_init
            required_balance]
        match build_and_send_tx env ctx instructions with
        | (Except.error e, t2) => (Except.error e, t1 ++ Effect.built instructions :: t2)
        | (Except.ok _, t2) => (Except.ok (), t1 ++ Effect.built instructions :: t2)

/-- src/commands/vote.rs `process_sol_withdraw_from_vote_account` (lines
284-331); the authorized-withdrawer keypair enters here only through its
public key.  Fetch the account (a failed fetch is reported as
"does not exist"), require vote-program ownership, deserialize the vote
state, require the supplied key to equal the account's authorized
withdrawer, then build the vote-withdraw instruction and submit it. -/
def process_sol_withdraw_from_vote_account (env : GatewayEnv)
    (ctx : ScillaContext) (vote_account_pubkey withdrawer_pubkey
    recipient_address : Pubkey) (amount : Nat) :
    Except ScErr Unit × List Effect :=
  let t0 := [Effect.call (GatewayCall.get_account vote_account_pubkey)]
  match env.get_account vote_account_pubkey with
  | Except.error _ => (Except.error (ScErr.accountDoesNotExist vote_account_pubkey), t0)
  | Except.ok vote_account =>
    if vote_account.owner ≠ vote_program_id then
      (Except.error (ScErr.notAVoteAccount vote_account_pubkey), t0)
    else
      match env.decode_vote_state vote_account.data with
      | Except.error _ => (Except.error ScErr.voteStateDeserializeFailed, t0)
      | Except.ok vote_state =>
        if withdrawer_pubkey ≠ vote_state.authorized_withdrawer then
          (Except.error
            (ScErr.keypairNotAuthorizedWithdrawer withdrawer_pubkey
              vote_state.authorized_withdrawer), t0)
        else
          let withdraw_ix :=
            Instruction.vote_withdraw vote_account_pubkey withdrawer_pubkey amount
              recipient_address
          match build_and_send_tx env ctx [withdraw_ix] with
          | (Except.error e, t1) => (Except.error e, t0 ++ Effect.built [withdraw_ix] :: t1)
          | (Except.ok _, t1) => (Except.ok (), t0 ++ Effect.built [withdraw_ix] :: t1)

/-- The interactive loop of `main` (src/main.rs lines 30-42).  Each list
element is the outcome of one iteration: `prompt_for_command()?` followed by
`process_command`, which in this revision returns a `CommandFlow` directly
(so commands have no error channel into the loop), while a prompt failure is
an `Except.error` that `?` propagates out of the loop.  `none` means the
supplied trace ended with the loop still running. -/
def runMainLoop : List (Except String (CommandFlow Unit)) →
    Option (Except String (CommandFlow Unit))
  | [] => none
  | step :: rest =>
    match step with
    | Except.error e => some (Except.error e)
    | Except.ok (CommandFlow.Process _) => runMainLoop rest
    | Except.ok CommandFlow.GoBack => runMainLoop rest
    | Except.ok CommandFlow.Exit => some (Except.ok CommandFlow.Exit)

/-! ## Theorems -/

/-- C10: `request_sol_airdrop` returns `Ok(())` whether the gateway airdrop
request succeeds or fails; a gateway error is only printed
(`Airdrop failed: err`), never propagated, so the router observes a
completed outcome even when the airdrop failed. -/
theorem request_sol_airdrop_always_ok (env : GatewayEnv) (ctx : ScillaContext) :
    (request_sol_airdrop env ctx).1 = Except.ok () ∧
    (∀ e, env.request_airdrop = Except.error e →
      (request_sol_airdrop env ctx).2.1 = [Printed.airdropFailed e]) := by
  constructor
  · cases h : env.request_airdrop <;> simp [request_sol_airdrop, h]
  · intro e he
    simp [request_sol_airdrop, he]

/-- Environment for the airdrop claim: the gateway rejects the request. -/
def envAirdropFail : GatewayEnv :=
  { get_account := fun _ => Except.error "nf"
    get_epoch_info := Except.ok 0
    get_latest_blockhash := Except.ok 0
    get_minimum_balance_for_rent_exemption := fun _ => Except.ok 0
    request_airdrop := Except.error "rate limited"
    send_and_confirm := Except.ok 0
    decode_stake_state := fun _ => Except.error "nd"
    decode_vote_state := fun _ => Except.error "nd" }

theorem request_sol_airdrop_always_ok_witness :
    (request_sol_airdrop envAirdropFail ⟨7⟩).1 = Except.ok () ∧
    (request_sol_airdrop envAirdropFail ⟨7⟩).2.1 =
      [Printed.airdropFailed "rate limited"] :=
  ⟨(request_sol_airdrop_always_ok envAirdropFail ⟨7⟩).1,
   (request_sol_airdrop_always_ok envAirdropFail ⟨7⟩).2 "rate limited" rfl⟩

/-- C9: when the prompted amount exceeds `MAX_TRANSFER_SOL`, the Transfer
arm of `AccountCommand::process_command` prints an error naming the limit
and returns `CommandFlow::Process(())` without invoking `transfer_sol`: its
effect trace is empty, so no balance fetch, blockhash fetch, signing or
submission occurs, and the session continues. -/
theorem account_transfer_limit_guard (max_transfer_sol : ℚ) (env : GatewayEnv)
    (ctx : ScillaContext) (to_pubkey : Pubkey) (amount : ℚ)
    (h : amount > max_transfer_sol) :
    account_transfer_arm max_transfer_sol env ctx to_pubkey amount =
      (CommandFlow.Process (),
       [Printed.maxTransferLimitExceeded max_transfer_sol], []) := by
  simp [account_transfer_arm, h]

theorem account_transfer_limit_guard_witness :
    account_transfer_arm 1000 envAirdropFail ⟨7⟩ 8 1001 =
      (CommandFlow.Process (), [Printed.maxTransferLimitExceeded 1000], []) :=
  account_transfer_limit_guard 1000 envAirdropFail ⟨7⟩ 8 1001 (by decide)

/-- C5: vote-account creation rejects a fee payer equal to the vote account,
and a vote account equal to the identity, naming both conflicting addresses;
in the fee-payer case (and in fact in both cases) the rejection happens with
an empty effect trace, i.e. before any gateway call — no account lookup and
no balance lookup is performed. -/
theorem create_vote_account_distinctness_guard (env : GatewayEnv)
    (ctx : ScillaContext) (va id_pk wd : Pubkey) (c : Nat) :
    (ctx.pubkey = va →
      process_create_vote_account env ctx va id_pk wd c =
        (Except.error (ScErr.feePayerEqualsVoteAccount ctx.pubkey va), [])) ∧
    (ctx.pubkey ≠ va → va = id_pk →
      process_create_vote_account env ctx va id_pk wd c =
        (Except.error (ScErr.voteAccountEqualsIdentity va id_pk), [])) := by
  constructor
  · intro hfp
    simp [process_create_vote_account, hfp]
  · intro hfp hvi
    subst hvi
    simp [process_create_vote_account, hfp]

theorem create_vote_account_distinctness_guard_witness :
    process_create_vote_account envAirdropFail ⟨5⟩ 5 9 11 0 =
      (Except.error (ScErr.feePayerEqualsVoteAccount 5 5), []) :=
  (create_vote_account_distinctness_guard envAirdropFail ⟨5⟩ 5 9 11 0).1 rfl

/-- C6: when vote-account creation passes the distinctness checks and the
already-exists probe (the account fetch fails, i.e. no account is found) and
the gateway reports rent-exempt minimum `m` for the vote-state encoding
size, the built creation instructions carry a funding amount of
`max m 1` — the greater of the rent-exempt minimum and a floor of one
lamport. -/
theorem create_vote_account_funding_amount (env : GatewayEnv)
    (ctx : ScillaContext) (va id_pk wd : Pubkey) (c m : Nat) (e : String)
    (hfp : ctx.pubkey ≠ va) (hvi : va ≠ id_pk)
    (hacct : env.get_account va = Except.error e)
    (hrent : env.get_minimum_balance_for_rent_exemption vote_state_v4_size_of =
      Except.ok m) :
    Effect.built
        [Instruction.create_vote_account ctx.pubkey va
          { node_pubkey := id_pk, authorized_voter := id_pk,
            authorized_withdrawer := wd, commission := c } (max m 1)] ∈
      (process_create_vote_account env ctx va id_pk wd c).2 := by
  rcases hb : build_and_send_tx env ctx
      [Instruction.create_vote_account ctx.pubkey va
        { node_pubkey := id_pk, authorized_voter := id_pk,
          authorized_withdrawer := wd, commission := c } (max m 1)] with ⟨r, t⟩
  cases r <;>
    simp [process_create_vote_account, hfp, hvi, hacct, hrent, hb]

/-- Environment for the funding-amount claim: no account at the target
address and a rent-exempt minimum of 0, exercising the one-lamport floor. -/
def envVoteCreate : GatewayEnv :=
  { get_account := fun _ => Except.error "nf"
    get_epoch_info := Except.ok 0
    get_latest_blockhash := Except.ok 3
    get_minimum_balance_for_rent_exemption := fun _ => Except.ok 0
    request_airdrop := Except.ok 0
    send_and_confirm := Except.ok 4
    decode_stake_state := fun _ => Except.error "nd"
    decode_vote_state := fun _ => Except.error "nd" }

theorem create_vote_account_funding_amount_witness :
    Effect.built
        [Instruction.create_vote_account 5 6
          { node_pubkey := 9, authorized_voter := 9,
            authorized_withdrawer := 11, commission := 0 } 1] ∈
      (process_create_vote_account envVoteCreate ⟨5⟩ 6 9 11 0).2 :=
  create_vote_account_funding_amount envVoteCreate ⟨5⟩ 6 9 11 0 0 "nf"
    (by decide) (by decide) rfl rfl

/-- C7: vote-account withdrawal is rejected when the account fetch fails,
rejected when the target is not owned by the vote program, and rejected when
the supplied authority `k` differs from the account's authorized withdrawer
`w` — in that case with an error naming both `k` and `w` and with an effect
trace containing the account fetch only, so no withdraw instruction is built
or submitted; and whenever the routine succeeds, the account was owned by
the vote program and `k` equalled the authorized withdrawer. -/
theorem vote_withdraw_authority_guard (env : GatewayEnv) (ctx : ScillaContext)
    (va k recip : Pubkey) (amount : Nat) :
    (∀ e, env.get_account va = Except.error e →
      process_sol_withdraw_from_vote_account env ctx va k recip amount =
        (Except.error (ScErr.accountDoesNotExist va),
         [Effect.call (GatewayCall.get_account va)])) ∧
    (∀ acct, env.get_account va = Except.ok acct →
      acct.owner ≠ vote_program_id →
      process_sol_withdraw_from_vote_account env ctx va k recip amount =
        (Except.error (ScErr.notAVoteAccount va),
         [Effect.call (GatewayCall.get_account va)])) ∧
    (∀ acct vs, env.get_account va = Except.ok acct →
      acct.owner = vote_program_id →
      env.decode_vote_state acct.data = Except.ok vs →
      k ≠ vs.authorized_withdrawer →
      process_sol_withdraw_from_vote_account env ctx va k recip amount =
        (Except.error
          (ScErr.keypairNotAuthorizedWithdrawer k vs.authorized_withdrawer),
         [Effect.call (GatewayCall.get_account va)])) ∧
    (∀ r, (process_sol_withdraw_from_vote_account env ctx va k recip amount).1 =
        Except.ok r →
      ∃ acct vs, env.get_account va = Except.ok acct ∧
        acct.owner = vote_program_id ∧
        env.decode_vote_state acct.data = Except.ok vs ∧
        k = vs.authorized_withdrawer) := by
  refine ⟨?_, ?_, ?_, ?_⟩
  · intro e he
    simp [process_sol_withdraw_from_vote_account, he]
  · intro acct hacct hown
    simp [process_sol_withdraw_from_vote_account, hacct, hown]
  · intro acct vs hacct hown hdec hk
    simp [process_sol_withdraw_from_vote_account, hacct, hown, hdec, hk]
  · intro r hr
    cases hacct : env.get_account va with
    | error e =>
      simp [process_sol_withdraw_from_vote_account, hacct] at hr
    | ok acct =>
      by_cases hown : acct.owner = vote_program_id
      · cases hdec : env.decode_vote_state acct.data with
        | error e =>
          simp [process_sol_withdraw_from_vote_account, hacct, hown, hdec] at hr
        | ok vs =>
          by_cases hk : k = vs.authorized_withdrawer
          · exact ⟨acct, vs, hacct ▸ rfl, hown, hdec, hk⟩
          · simp [process_sol_withdraw_from_vote_account, hacct, hown, hdec, hk] at hr
      · simp [process_sol_withdraw_from_vote_account, hacct, hown] at hr

/-- Environment for the vote-withdraw claim: a vote-program-owned account
whose decoded state has authorized withdrawer 30. -/
def envVoteWithdraw : GatewayEnv :=
  { get_account := fun _ =>
      Except.ok
        { lamports := 100, owner := vote_program_id, data := [0],
          executable := false, rent_epoch := 0 }
    get_epoch_info := Except.ok 0
    get_latest_blockhash := Except.ok 3
    get_minimum_balance_for_rent_exemption := fun _ => Except.ok 0
    request_airdrop := Except.ok 0
    send_and_confirm := Except.ok 4
    decode_stake_state := fun _ => Except.error "nd"
    decode_vote_state := fun _ =>
      Except.ok { node_pubkey := 9, authorized_withdrawer := 30 } }

theorem vote_withdraw_authority_guard_witness :
    process_sol_withdraw_from_vote_account envVoteWithdraw ⟨7⟩ 6 31 8 50 =
      (Except.error (ScErr.keypairNotAuthorizedWithdrawer 31 30),
       [Effect.call (GatewayCall.get_account 6)]) :=
  (vote_withdraw_authority_guard envVoteWithdraw ⟨7⟩ 6 31 8 50).2.2.1
    { lamports := 100, owner := vote_program_id, data := [0],
      executable := false, rent_epoch := 0 }
    { node_pubkey := 9, authorized_withdrawer := 30 }
    rfl rfl rfl (by decide)

/-- C3: stake deactivation builds its instruction only when the account is
owned by the stake program, the decoded state is the delegated `Stake`
variant, the deactivation epoch still equals the never-deactivated sentinel
and the caller is the authorized staker; each single violated condition
yields the corresponding named rejection, and an account that is already
deactivating is an error (`alreadyDeactivating`), not a no-op. -/
theorem deactivate_stake_validation (env : GatewayEnv) (ctx : ScillaContext)
    (sp : Pubkey) :
    (∀ acct, env.get_account sp = Except.ok acct →
      acct.owner ≠ stake_program_id →
      process_deactivate_stake_account env ctx sp =
        (Except.error ScErr.notOwnedByStakeProgram,
         [Effect.call (GatewayCall.get_account sp)])) ∧
    (∀ acct meta stake flags, env.get_account sp = Except.ok acct →
      acct.owner = stake_program_id →
      env.decode_stake_state acct.data =
        Except.ok (StakeStateV2.Stake meta stake flags) →
      stake.delegation.deactivation_epoch ≠ ACTIVE_STAKE_EPOCH_BOUND →
      process_deactivate_stake_account env ctx sp =
        (Except.error
          (ScErr.alreadyDeactivating stake.delegation.deactivation_epoch),
         [Effect.call (GatewayCall.get_account sp)])) ∧
    (∀ acct meta stake flags, env.get_account sp = Except.ok acct →
      acct.owner = stake_program_id →
      env.decode_stake_state acct.data =
        Except.ok (StakeStateV2.Stake meta stake flags) →
      stake.delegation.deactivation_epoch = ACTIVE_STAKE_EPOCH_BOUND →
      meta.authorized.staker ≠ ctx.pubkey →
      process_deactivate_stake_account env ctx sp =
        (Except.error (ScErr.notAuthorizedStaker meta.authorized.staker),
         [Effect.call (GatewayCall.get_account sp)])) ∧
    (∀ acct meta, env.get_account sp = Except.ok acct →
      acct.owner = stake_program_id →
      env.decode_stake_state acct.data =
        Except.ok (StakeStateV2.Initialized meta) →
      process_deactivate_stake_account env ctx sp =
        (Except.error ScErr.initializedNotDelegated,
         [Effect.call (GatewayCall.get_account sp)])) ∧
    (∀ acct, env.get_account sp = Except.ok acct →
      acct.owner = stake_program_id →
      (env.decode_stake_state acct.data = Except.ok StakeStateV2.Uninitialized ∨
       env.decode_stake_state acct.data = Except.ok StakeStateV2.RewardsPool) →
      process_deactivate_stake_account env ctx sp =
        (Except.error ScErr.invalidStateForDeactivation,
         [Effect.call (GatewayCall.get_account sp)])) ∧
    (∀ instrs, Effect.built instrs ∈
        (process_deactivate_stake_account env ctx sp).2 →
      ∃ acct meta stake flags, env.get_account sp = Except.ok acct ∧
        acct.owner = stake_program_id ∧
        env.decode_stake_state acct.data =
          Except.ok (StakeStateV2.Stake meta stake flags) ∧
        stake.delegation.deactivation_epoch = ACTIVE_STAKE_EPOCH_BOUND ∧
        meta.authorized.staker = ctx.pubkey ∧
        instrs = [Instruction.deactivate_stake sp ctx.pubkey]) := by
  refine ⟨?_, ?_, ?_, ?_, ?_, ?_⟩
  · intro acct hacct hown
    simp [process_deactivate_stake_account, hacct, hown]
  · intro acct meta stake flags hacct hown hdec hde
    simp [process_deactivate_stake_account, hacct, hown, hdec, hde]
  · intro acct meta stake flags hacct hown hdec hde hst
    simp [process_deactivate_stake_account, hacct, hown, hdec, hde, hst]
  · intro acct meta hacct hown hdec
    simp [process_deactivate_stake_account, hacct, hown, hdec]
  · intro acct hacct hown hdec
    cases hdec with
    | inl h => simp [process_deactivate_stake_account, hacct, hown, h]
    | inr h => simp [process_deactivate_stake_account, hacct, hown, h]
  · intro instrs hmem
    cases hacct : env.get_account sp with
    | error e =>
      simp [process_deactivate_stake_account, hacct] at hmem
    | ok acct =>
      by_cases hown : acct.owner = stake_program_id
      · cases hdec : env.decode_stake_state acct.data with
        | error e =>
          simp [process_deactivate_stake_account, hacct, hown, hdec] at hmem
        | ok st =>
          cases st with
          | Uninitialized =>
            simp [process_deactivate_stake_account, hacct, hown, hdec] at hmem
          | Initialized meta =>
            simp [process_deactivate_stake_account, hacct, hown, hdec] at hmem
          | RewardsPool =>
            simp [process_deactivate_stake_account, hacct, hown, hdec] at hmem
          | Stake meta stake flags =>
            by_cases hde :
                stake.delegation.deactivation_epoch = ACTIVE_STAKE_EPOCH_BOUND
            · by_cases hst : meta.authorized.staker = ctx.pubkey
              · refine ⟨acct, meta, stake, flags, hacct ▸ rfl, hown, hdec, hde, hst, ?_⟩
                cases hbh : env.get_latest_blockhash with
                | error e =>
                  simp [process_deactivate_stake_account, hacct, hown, hdec,
                    hde, hst, build_and_send_tx, hbh] at hmem
                  exact hmem
                | ok bh =>
                  cases hsc : env.send_and_confirm with
                  | error e =>
                    simp [process_deactivate_stake_account, hacct, hown, hdec,
                      hde, hst, build_and_send_tx, hbh, hsc] at hmem
                    exact hmem
                  | ok s =>
                    simp [process_deactivate_stake_account, hacct, hown, hdec,
                      hde, hst, build_and_send_tx, hbh, hsc] at hmem
                    exact hmem
              · simp [process_deactivate_stake_account, hacct, hown, hdec,
                  hde, hst] at hmem
            · simp [process_deactivate_stake_account, hacct, hown, hdec,
                hde] at hmem
      · simp [process_deactivate_stake_account, hacct, hown] at hmem

/-- Environment for the deactivation claim: a stake-program-owned account
whose delegated state is already deactivating at epoch 55. -/
def envStakeDeactivating : GatewayEnv :=
  { get_account := fun _ =>
      Except.ok
        { lamports := 500, owner := stake_program_id, data := [0],
          executable := false, rent_epoch := 0 }
    get_epoch_info := Except.ok 60
    get_latest_blockhash := Except.ok 3
    get_minimum_balance_for_rent_exemption := fun _ => Except.ok 0
    request_airdrop := Except.ok 0
    send_and_confirm := Except.ok 4
    decode_stake_state := fun _ =>
      Except.ok
        (StakeStateV2.Stake { authorized := { staker := 7, withdrawer := 7 } }
          { delegation := { deactivation_epoch := 55 } } 0)
    decode_vote_state := fun _ => Except.error "nd" }

theorem deactivate_stake_validation_witness :
    process_deactivate_stake_account envStakeDeactivating ⟨7⟩ 21 =
      (Except.error (ScErr.alreadyDeactivating 55),
       [Effect.call (GatewayCall.get_account 21)]) :=
  (deactivate_stake_validation envStakeDeactivating ⟨7⟩ 21).2.1
    { lamports := 500, owner := stake_program_id, data := [0],
      executable := false, rent_epoch := 0 }
    { authorized := { staker := 7, withdrawer := 7 } }
    { delegation := { deactivation_epoch := 55 } } 0
    rfl rfl rfl (by decide)

/-- C2: for a withdrawal from an account decoded as the delegated `Stake`
variant that reaches the lifecycle checks (positive amount, caller equal to
the authorized withdrawer), if the deactivation marker is set (deactivation
epoch differs from the sentinel) and the current epoch is at most the
deactivation epoch, the routine rejects with the cooldown error carrying the
current epoch, the deactivation epoch and `deactivation_epoch −
current_epoch` epochs remaining; and whenever the routine succeeds, the
deactivation marker was set and the current epoch was strictly greater than
the deactivation epoch. -/
theorem withdraw_stake_cooldown_gate (env : GatewayEnv) (ctx : ScillaContext)
    (sp rp : Pubkey) (amount : ℚ) (acct : Account) (meta : Meta)
    (stake : StakeData) (flags : Nat)
    (hacct : env.get_account sp = Except.ok acct)
    (hown : acct.owner = stake_program_id)
    (hdec : env.decode_stake_state acct.data =
      Except.ok (StakeStateV2.Stake meta stake flags)) :
    (∀ epoch, 0 < amount →
      meta.authorized.withdrawer = ctx.pubkey →
      stake.delegation.deactivation_epoch ≠ ACTIVE_STAKE_EPOCH_BOUND →
      env.get_epoch_info = Except.ok epoch →
      epoch ≤ stake.delegation.deactivation_epoch →
      (process_withdraw_stake env ctx sp rp amount).1 =
        Except.error
          (ScErr.stakeCoolingDown epoch stake.delegation.deactivation_epoch
            (stake.delegation.deactivation_epoch - epoch))) ∧
    (∀ r, (process_withdraw_stake env ctx sp rp amount).1 = Except.ok r →
      stake.delegation.deactivation_epoch ≠ ACTIVE_STAKE_EPOCH_BOUND ∧
      ∃ epoch, env.get_epoch_info = Except.ok epoch ∧
        stake.delegation.deactivation_epoch < epoch) := by
  constructor
  · intro epoch hpos hwd hde hep hle
    have hnle : ¬amount ≤ 0 := not_le.mpr hpos
    simp [process_withdraw_stake, hnle, hacct, hown, hdec,
      validate_withdraw_state, hwd, hde, hep, hle]
  · intro r hr
    by_cases hpos : amount ≤ 0
    · simp [process_withdraw_stake, hpos] at hr
    · by_cases hwd : meta.authorized.withdrawer = ctx.pubkey
      · by_cases hde :
            stake.delegation.deactivation_epoch = ACTIVE_STAKE_EPOCH_BOUND
        · simp [process_withdraw_stake, hpos, hacct, hown, hdec,
            validate_withdraw_state, hwd, hde] at hr
        · refine ⟨hde, ?_⟩
          cases hep : env.get_epoch_info with
          | error e =>
            simp [process_withdraw_stake, hpos, hacct, hown, hdec,
              validate_withdraw_state, hwd, hde, hep] at hr
          | ok epoch =>
            refine ⟨epoch, hep ▸ rfl, ?_⟩
            by_cases hle : epoch ≤ stake.delegation.deactivation_epoch
            · simp [process_withdraw_stake, hpos, hacct, hown, hdec,
                validate_withdraw_state, hwd, hde, hep, hle] at hr
            · exact not_le.mp hle
      · simp [process_withdraw_stake, hpos, hacct, hown, hdec,
          validate_withdraw_state, hwd] at hr

/-- Environment for the cooldown claim and the spec scenario: deactivation
epoch 100, current epoch 100, caller 7 is the authorized withdrawer. -/
def envStakeCooldown : GatewayEnv :=
  { get_account := fun _ =>
      Except.ok
        { lamports := 7000000000, owner := stake_program_id, data := [0],
          executable := false, rent_epoch := 0 }
    get_epoch_info := Except.ok 100
    get_latest_blockhash := Except.ok 3
    get_minimum_balance_for_rent_exemption := fun _ => Except.ok 0
    request_airdrop := Except.ok 0
    send_and_confirm := Except.ok 4
    decode_stake_state := fun _ =>
      Except.ok
        (StakeStateV2.Stake { authorized := { staker := 7, withdrawer := 7 } }
          { delegation := { deactivation_epoch := 100 } } 0)
    decode_vote_state := fun _ => Except.error "nd" }

theorem withdraw_stake_cooldown_gate_witness :
    (process_withdraw_stake envStakeCooldown ⟨7⟩ 21 22 5).1 =
      Except.error (ScErr.stakeCoolingDown 100 100 0) :=
  (withdraw_stake_cooldown_gate envStakeCooldown ⟨7⟩ 21 22 5
    { lamports := 7000000000, owner := stake_program_id, data := [0],
      executable := false, rent_epoch := 0 }
    { authorized := { staker := 7, withdrawer := 7 } }
    { delegation := { deactivation_epoch := 100 } } 0
    rfl rfl rfl).1 100 (by decide) rfl (by decide) rfl (by decide)

/-- Environment for the transfer claim: the sender's account holds 2 SOL
(2,000,000,000 lamports) and the gateway accepts blockhash fetch and
submission. -/
def envTransfer : GatewayEnv :=
  { get_account := fun _ =>
      Except.ok
        { lamports := 2000000000, owner := 0, data := [],
          executable := false, rent_epoch := 0 }
    get_epoch_info := Except.ok 0
    get_latest_blockhash := Except.ok 11
    get_minimum_balance_for_rent_exemption := fun _ => Except.ok 0
    request_airdrop := Except.ok 0
    send_and_confirm := Except.ok 77
    decode_stake_state := fun _ => Except.error "nd"
    decode_vote_state := fun _ => Except.error "nd" }

/-- C1, evaluated at the failing input: with the sender's balance at 2 SOL
and a requested amount of 5 SOL, `transfer_sol` nevertheless succeeds — it
builds the 5,000,000,000-lamport transfer instruction, fetches a blockhash
and submits the transaction.  Its effect trace contains no `get_balance` and
no `get_account` call at all, so the sender's balance is never consulted and
no validation rejection citing the balance and the requested amount can
occur. -/
theorem transfer_sol_no_balance_check :
    (transfer_sol envTransfer ⟨10⟩ 20 5).1 = Except.ok () ∧
    (transfer_sol envTransfer ⟨10⟩ 20 5).2 =
      [Effect.built [Instruction.transfer 10 20 5000000000],
       Effect.call GatewayCall.get_latest_blockhash,
       Effect.submit [Instruction.transfer 10 20 5000000000] 11] ∧
    sol_to_lamports 5 = 5000000000 ∧
    envTransfer.get_account 10 =
      Except.ok
        { lamports := 2000000000, owner := 0, data := [],
          executable := false, rent_epoch := 0 } ∧
    2000000000 < 5000000000 := by
  have h5 : f64_as_u64 ((5 : ℚ) * (LAMPORTS_PER_SOL : ℚ)) = 5000000000 := by
    norm_num [f64_as_u64, LAMPORTS_PER_SOL, U64_MAX, Rat.floor_def']
    rfl
  refine ⟨?_, ?_, ?_, rfl, by norm_num⟩
  · simp [transfer_sol, build_and_send_tx, envTransfer]
  · simp [transfer_sol, build_and_send_tx, envTransfer, h5]
  · simpa [sol_to_lamports] using h5

/-- C4 counterexample: an error from `prompt_for_command()` is propagated by
`?` out of the interactive loop, so the loop terminates without the Exit
leaf ever being selected and `main`'s `Err` return reports a failure exit
code — contradicting "the process exit code is always success" and "no
error produced by prompting terminates the process with a failure exit
code". -/
theorem main_loop_prompt_error_fails :
    runMainLoop [Except.error "prompt failed"] =
      some (Except.error "prompt failed") ∧
    mainExitCode (Except.error "prompt failed") = ExitCode.failure ∧
    (Except.error "prompt failed" : Except String (CommandFlow Unit)) ≠
      Except.ok CommandFlow.Exit :=
  ⟨rfl, rfl, by simp⟩

/-- Whether one loop iteration's prompt succeeded. -/
def promptOk : Except String (CommandFlow Unit) → Bool
  | Except.ok _ => true
  | Except.error _ => false

/-- C4 amended: commands have no error channel into the loop (their outcome
type is `CommandFlow`), a `Process` or `GoBack` outcome always continues the
loop, and whenever no prompt error occurs the loop can only terminate
through the user-selected Exit leaf, in which case `main` returns `Ok` and
the process exit code is success; a prompting error, by contrast, ends the
loop with an `Err` return and a failure exit code. -/
theorem main_loop_success_exit :
    (∀ (u : Unit) (rest : List (Except String (CommandFlow Unit))),
      runMainLoop (Except.ok (CommandFlow.Process u) :: rest) =
        runMainLoop rest) ∧
    (∀ rest : List (Except String (CommandFlow Unit)),
      runMainLoop (Except.ok CommandFlow.GoBack :: rest) = runMainLoop rest) ∧
    (∀ (trace : List (Except String (CommandFlow Unit)))
        (r : Except String (CommandFlow Unit)),
      (∀ s ∈ trace, promptOk s = true) →
      runMainLoop trace = some r →
      r = Except.ok CommandFlow.Exit ∧ mainExitCode r = ExitCode.success) := by
  refine ⟨fun u rest => rfl, fun rest => rfl, ?_⟩
  intro trace
  induction trace with
  | nil =>
    intro r _ hr
    simp [runMainLoop] at hr
  | cons s rest ih =>
    intro r h hr
    cases s with
    | error e =>
      have := h _ (List.mem_cons_self _ _)
      simp [promptOk] at this
    | ok flow =>
      cases flow with
      | Process u =>
        exact ih r (fun s hs => h s (List.mem_cons_of_mem _ hs)) hr
      | GoBack =>
        exact ih r (fun s hs => h s (List.mem_cons_of_mem _ hs)) hr
      | Exit =>
        have hr' : Except.ok CommandFlow.Exit = r := by
          simpa [runMainLoop] using hr
        exact ⟨hr'.symm, hr' ▸ rfl⟩

theorem main_loop_success_exit_witness :
    (Except.ok CommandFlow.Exit : Except String (CommandFlow Unit)) =
      Except.ok CommandFlow.Exit ∧
    mainExitCode (Except.ok CommandFlow.Exit) = ExitCode.success :=
  main_loop_success_exit.2.2
    [Except.ok (CommandFlow.Process ()), Except.ok CommandFlow.GoBack,
     Except.ok CommandFlow.Exit]
    (Except.ok CommandFlow.Exit) (by decide) rfl

end Scilla
